import Mathlib

/-!
# Verification of the BankAnalytics metrics & risk scoring engine

Shallow embedding of `src/metrics.py` (with the constants of `src/config.py`).
Table rows are modelled as structures over `ℚ`; each calculator of the engine
becomes a pure function from a `DataSource` (the current contents of the three
tables) to its result.  `round(x, 2)` is modelled by `round2` on `ℚ`.
-/

/-- `config.EQUITY_PERCENTAGE`: 15% of total assets taken as equity. -/
def EQUITY_PERCENTAGE : ℚ := 15 / 100

/-- `config.MONTHS_FOR_ANALYSIS`: size of the analysis window. -/
def MONTHS_FOR_ANALYSIS : ℕ := 12

/-- A row of the `financial_statements` table. -/
structure FinancialPeriod where
  month : String
  interest_income : ℚ
  interest_expense : ℚ
  fee_income : ℚ
  operating_cost : ℚ
  net_profit : ℚ
  deriving DecidableEq, Repr

/-- A row of the `accounts` table. -/
structure Account where
  account_id : String
  customer_id : String
  account_type : String
  balance : ℚ
  interest_rate : ℚ
  deriving DecidableEq, Repr

/-- A row of the `loans` table. -/
structure Loan where
  loan_id : String
  customer_id : String
  sector : String
  loan_amount : ℚ
  interest_rate : ℚ
  default_flag : Bool
  deriving DecidableEq, Repr

/-- The current contents of the data source read by the engine. -/
structure DataSource where
  financial_statements : List FinancialPeriod
  accounts : List Account
  loans : List Loan
  deriving DecidableEq, Repr

/-- Python `round(q, 2)`: round to two decimal places. -/
def round2 (q : ℚ) : ℚ := ((round (q * 100) : ℤ) : ℚ) / 100

/-- Sum of `f` over the rows of `l` (the SQL `SUM` aggregates; an empty
aggregation contributes `0`, matching `COALESCE`/`_safe_get_value`). -/
def sumBy {α : Type} (l : List α) (f : α → ℚ) : ℚ := (l.map f).sum

/-- `ORDER BY month DESC`: later months first. -/
abbrev monthDesc (a b : FinancialPeriod) : Prop := b.month ≤ a.month

instance : DecidableRel monthDesc := fun a b =>
  inferInstanceAs (Decidable (b.month ≤ a.month))

instance : IsTotal FinancialPeriod monthDesc := ⟨fun a b => le_total b.month a.month⟩

instance : IsTrans FinancialPeriod monthDesc :=
  ⟨fun _ _ _ hab hbc => le_trans hbc hab⟩

/-- The analysis window: `ORDER BY month DESC LIMIT MONTHS_FOR_ANALYSIS`. -/
def windowFS (fs : List FinancialPeriod) : List FinancialPeriod :=
  (List.insertionSort monthDesc fs).take MONTHS_FOR_ANALYSIS

/-- `WHERE account_type IN ('checking', 'savings')`. -/
def isDepositType (a : Account) : Bool :=
  a.account_type == "checking" || a.account_type == "savings"

/-- `SUM(balance)` over deposit accounts. -/
def totalDeposits (ds : DataSource) : ℚ :=
  sumBy (ds.accounts.filter isDepositType) (·.balance)

/-- `SUM(loan_amount)` over all loans. -/
def totalLoanAmount (ds : DataSource) : ℚ :=
  sumBy ds.loans (·.loan_amount)

/-- `SUM(CASE WHEN default_flag = 1 THEN loan_amount ELSE 0 END)`. -/
def defaultedAmount (ds : DataSource) : ℚ :=
  sumBy (ds.loans.filter (·.default_flag)) (·.loan_amount)

/-- `metrics.calculate_net_interest_margin`. -/
def calculate_net_interest_margin (ds : DataSource) : ℚ :=
  let df := windowFS ds.financial_statements
  let total_interest_income := sumBy df (·.interest_income)
  let total_interest_expense := sumBy df (·.interest_expense)
  let avg_assets := totalDeposits ds + totalLoanAmount ds
  if avg_assets = 0 then 0
  else round2 ((total_interest_income - total_interest_expense) / avg_assets * 100)

/-- `metrics.calculate_roa`. -/
def calculate_roa (ds : DataSource) : ℚ :=
  let total_profit := sumBy (windowFS ds.financial_statements) (·.net_profit)
  let total_assets := totalDeposits ds + totalLoanAmount ds
  if total_assets = 0 then 0
  else round2 (total_profit / total_assets * 100)

/-- `metrics.calculate_roe`. -/
def calculate_roe (ds : DataSource) : ℚ :=
  let total_profit := sumBy (windowFS ds.financial_statements) (·.net_profit)
  let total_assets := totalDeposits ds + totalLoanAmount ds
  let equity := total_assets * EQUITY_PERCENTAGE
  if equity = 0 then 0
  else round2 (total_profit / equity * 100)

/-- `metrics.calculate_cost_to_income_ratio`. -/
def calculate_cost_to_income_ratio (ds : DataSource) : ℚ :=
  let df := windowFS ds.financial_statements
  let total_costs := sumBy df (·.operating_cost)
  let total_income := sumBy df (·.interest_income) + sumBy df (·.fee_income)
  if total_income = 0 then 0
  else round2 (total_costs / total_income * 100)

/-- `metrics.calculate_loan_to_deposit_ratio`. -/
def calculate_loan_to_deposit_ratio (ds : DataSource) : ℚ :=
  let total_deposits := totalDeposits ds
  let total_loans := totalLoanAmount ds
  if total_deposits = 0 then 0
  else round2 (total_loans / total_deposits * 100)

/-- `metrics.calculate_default_rate`: `(rate by count, rate by value)`. -/
def calculate_default_rate (ds : DataSource) : ℚ × ℚ :=
  let total_loans : ℚ := ds.loans.length
  let defaulted_loans : ℚ := (ds.loans.filter (·.default_flag)).length
  let defaulted_amount := defaultedAmount ds
  let total_amount := totalLoanAmount ds
  if total_loans = 0 then (0, 0)
  else
    let rate_by_count := defaulted_loans / total_loans * 100
    let rate_by_value := if 0 < total_amount then defaulted_amount / total_amount * 100 else 0
    (round2 rate_by_count, round2 rate_by_value)

/-- `metrics.calculate_npl_ratio`. -/
def calculate_npl_ratio (ds : DataSource) : ℚ :=
  let total_loans := totalLoanAmount ds
  let npl_amount := defaultedAmount ds
  if total_loans = 0 then 0
  else round2 (npl_amount / total_loans * 100)

/-- A row of the sector-exposure result (`calculate_credit_exposure_by_sector`);
`default_rate` and `exposure_pct` are the columns added after the `GROUP BY`. -/
structure SectorExposure where
  sector : String
  loan_count : ℕ
  total_exposure : ℚ
  defaulted_exposure : ℚ
  defaulted_count : ℕ
  default_rate : ℚ
  exposure_pct : ℚ
  deriving DecidableEq, Repr

/-- Loans of a given sector. -/
def loansInSector (loans : List Loan) (s : String) : List Loan :=
  loans.filter (fun l => l.sector == s)

/-- The distinct sectors appearing in the loans table (`GROUP BY sector`). -/
def sectorList (loans : List Loan) : List String :=
  (loans.map (·.sector)).dedup

/-- One aggregated group of the sector query, before the derived columns
are filled in. -/
def baseSectorRow (loans : List Loan) (s : String) : SectorExposure :=
  let ls := loansInSector loans s
  { sector := s
    loan_count := ls.length
    total_exposure := sumBy ls (·.loan_amount)
    defaulted_exposure := sumBy (ls.filter (·.default_flag)) (·.loan_amount)
    defaulted_count := (ls.filter (·.default_flag)).length
    default_rate := 0
    exposure_pct := 0 }

/-- `ORDER BY total_exposure DESC`. -/
abbrev exposureDesc (a b : SectorExposure) : Prop :=
  b.total_exposure ≤ a.total_exposure

instance : DecidableRel exposureDesc := fun a b =>
  inferInstanceAs (Decidable (b.total_exposure ≤ a.total_exposure))

instance : IsTotal SectorExposure exposureDesc :=
  ⟨fun a b => le_total b.total_exposure a.total_exposure⟩

instance : IsTrans SectorExposure exposureDesc :=
  ⟨fun _ _ _ hab hbc => le_trans hbc hab⟩

/-- The result set of the grouped sector query, ordered by exposure. -/
def sectorQuery (loans : List Loan) : List SectorExposure :=
  List.insertionSort exposureDesc ((sectorList loans).map (baseSectorRow loans))

/-- The two derived columns added to the grouped result
(`df['default_rate'] = ...; df['exposure_pct'] = ...`). -/
def fillColumns (grand_total : ℚ) (r : SectorExposure) : SectorExposure :=
  { r with
    default_rate := (r.defaulted_count : ℚ) / (r.loan_count : ℚ) * 100
    exposure_pct := r.total_exposure / grand_total * 100 }

/-- `metrics.calculate_credit_exposure_by_sector`. -/
def calculate_credit_exposure_by_sector (ds : DataSource) : List SectorExposure :=
  let df := sectorQuery ds.loans
  if df.length = 0 then df
  else
    let grand_total := sumBy df (·.total_exposure)
    df.map (fillColumns grand_total)

/-- NPL contribution of the risk index: `min(npl_ratio * 10, 40)`. -/
def nplScore (ds : DataSource) : ℚ :=
  min (calculate_npl_ratio ds * 10) 40

/-- Liquidity contribution as a function of the LDR value. -/
def ldrScoreOf (ldr : ℚ) : ℚ :=
  let s :=
    if ldr < 80 then (80 - ldr) * (1 / 2)
    else if 100 < ldr then (ldr - 100) * (1 / 2)
    else 0
  min s 20

/-- Liquidity contribution of the risk index. -/
def ldrScore (ds : DataSource) : ℚ :=
  ldrScoreOf (calculate_loan_to_deposit_ratio ds)

/-- Default contribution of the risk index: `min(rate_by_value * 3, 30)`. -/
def defaultScore (ds : DataSource) : ℚ :=
  min ((calculate_default_rate ds).2 * 3) 30

/-- Concentration contribution of the risk index (Herfindahl index scaled to
0–10, defaulting to the maximum 10 when there is no sector data). -/
def concentrationScore (ds : DataSource) : ℚ :=
  let exposure_df := calculate_credit_exposure_by_sector ds
  if exposure_df.length = 0 then 10
  else
    let grand_total := sumBy exposure_df (·.total_exposure)
    let hhi := sumBy exposure_df (fun r => (r.total_exposure / grand_total * 100) ^ 2)
    hhi / 10000 * 10

/-- `metrics.calculate_bank_risk_index`. -/
def calculate_bank_risk_index (ds : DataSource) : ℚ :=
  let total_risk_score := nplScore ds + ldrScore ds + defaultScore ds + concentrationScore ds
  round2 (min total_risk_score 100)

/-- The mapping returned by `metrics.get_financial_summary`. -/
structure FinancialSummary where
  total_assets : ℚ
  total_deposits : ℚ
  total_loans : ℚ
  interest_income : ℚ
  interest_expense : ℚ
  fee_income : ℚ
  operating_cost : ℚ
  net_profit : ℚ
  deriving DecidableEq, Repr

/-- `metrics.get_financial_summary`. -/
def get_financial_summary (ds : DataSource) : FinancialSummary :=
  let df := windowFS ds.financial_statements
  let total_deposits := totalDeposits ds
  let total_loans := totalLoanAmount ds
  { total_assets := total_deposits + total_loans
    total_deposits := total_deposits
    total_loans := total_loans
    interest_income := sumBy df (·.interest_income)
    interest_expense := sumBy df (·.interest_expense)
    fee_income := sumBy df (·.fee_income)
    operating_cost := sumBy df (·.operating_cost)
    net_profit := sumBy df (·.net_profit) }

/-- The exceptions that can escape a query: `sqlite3.Error` (infrastructure)
or any other `Exception`. -/
inductive PyExc where
  | sqliteError
  | otherError
  deriving DecidableEq, Repr

/-- `metrics._safe_query_execution`: both `except` branches log and re-raise,
so the outcome of the underlying query execution is passed through unchanged. -/
def safeQueryExecution {α : Type} (result : Except PyExc α) : Except PyExc α :=
  match result with
  | .ok df => .ok df
  | .error e => .error e

/-- The `try` body of `calculate_net_interest_margin`, with the outcome of each
of its three queries supplied by the environment. -/
def nimBody (fsq : Except PyExc (List FinancialPeriod))
    (depq loq : Except PyExc ℚ) : Except PyExc ℚ := do
  let df ← safeQueryExecution fsq
  let deposits ← safeQueryExecution depq
  let loans ← safeQueryExecution loq
  let total_interest_income := sumBy df (·.interest_income)
  let total_interest_expense := sumBy df (·.interest_expense)
  let avg_assets := deposits + loans
  if avg_assets = 0 then pure 0
  else pure (round2 ((total_interest_income - total_interest_expense) / avg_assets * 100))

/-- `calculate_net_interest_margin` with its exception behaviour: the trailing
`except Exception: return 0.0` converts any escaping exception to `0.0`. -/
def calculate_net_interest_margin_exc (fsq : Except PyExc (List FinancialPeriod))
    (depq loq : Except PyExc ℚ) : Except PyExc ℚ :=
  match nimBody fsq depq loq with
  | .ok v => .ok v
  | .error _ => .ok 0

/-- A value carries exactly two decimal places. -/
def isRound2 (q : ℚ) : Prop := ∃ n : ℤ, q = (n : ℚ) / 100

/-- The empty data source: all three tables empty. -/
def emptyDS : DataSource := ⟨[], [], []⟩

/-! ## Basic lemmas about `sumBy` and `round2` -/

@[simp]
theorem sumBy_nil {α : Type} (f : α → ℚ) : sumBy ([] : List α) f = 0 := rfl

@[simp]
theorem sumBy_cons {α : Type} (x : α) (l : List α) (f : α → ℚ) :
    sumBy (x :: l) f = f x + sumBy l f := by
  simp [sumBy]

theorem sumBy_nonneg {α : Type} {l : List α} {f : α → ℚ}
    (h : ∀ x ∈ l, 0 ≤ f x) : 0 ≤ sumBy l f := by
  induction l with
  | nil => simp
  | cons x t ih =>
    have hx := h x (by simp)
    have ht := ih fun y hy => h y (by simp [hy])
    simp only [sumBy_cons]
    linarith

theorem sumBy_pos {α : Type} {l : List α} {f : α → ℚ}
    (hne : l ≠ []) (h : ∀ x ∈ l, 0 < f x) : 0 < sumBy l f := by
  cases l with
  | nil => exact absurd rfl hne
  | cons x t =>
    have hx := h x (by simp)
    have ht : 0 ≤ sumBy t f := sumBy_nonneg fun y hy => le_of_lt (h y (by simp [hy]))
    simp only [sumBy_cons]
    linarith

theorem sumBy_perm {α : Type} {l l' : List α} (h : l.Perm l') (f : α → ℚ) :
    sumBy l f = sumBy l' f :=
  (h.map f).sum_eq

theorem sumBy_map {α β : Type} (l : List α) (g : α → β) (f : β → ℚ) :
    sumBy (l.map g) f = sumBy l (fun x => f (g x)) := by
  simp only [sumBy, List.map_map]
  rfl

theorem sumBy_div_mul {α : Type} (l : List α) (f : α → ℚ) (T c : ℚ) :
    sumBy l (fun x => f x / T * c) = sumBy l f / T * c := by
  induction l with
  | nil => simp
  | cons x t ih =>
    simp only [sumBy_cons, ih]
    ring

theorem round2_nonneg {q : ℚ} (h : 0 ≤ q) : 0 ≤ round2 q := by
  unfold round2
  have h1 : (0 : ℤ) ≤ round (q * 100) := by
    rw [round_eq]
    exact Int.le_floor.mpr (by push_cast; linarith)
  have h2 : (0 : ℚ) ≤ ((round (q * 100) : ℤ) : ℚ) := by exact_mod_cast h1
  positivity

theorem round2_le_100 {q : ℚ} (h : q ≤ 100) : round2 q ≤ 100 := by
  unfold round2
  have h1 : round (q * 100) ≤ 10000 := by
    rw [round_eq]
    have hmono : ⌊q * 100 + 1 / 2⌋ ≤ ⌊(10000 : ℚ) + 1 / 2⌋ := Int.floor_mono (by linarith)
    have hval : ⌊(10000 : ℚ) + 1 / 2⌋ = 10000 := by norm_num
    omega
  have h2 : ((round (q * 100) : ℤ) : ℚ) ≤ 10000 := by exact_mod_cast h1
  linarith

theorem round2_intCast (n : ℤ) : round2 ((n : ℚ)) = n := by
  unfold round2
  have : ((n : ℚ)) * 100 = ((n * 100 : ℤ) : ℚ) := by push_cast; ring
  rw [this, round_intCast]
  push_cast
  field_simp

theorem isRound2_round2 (q : ℚ) : isRound2 (round2 q) :=
  ⟨round (q * 100), rfl⟩

theorem isRound2_zero : isRound2 0 :=
  ⟨0, by norm_num⟩

theorem isRound2_ite (c : Prop) [Decidable c] (q : ℚ) :
    isRound2 (if c then 0 else round2 q) := by
  split
  · exact isRound2_zero
  · exact isRound2_round2 q

/-- Either branch of `calculate_default_rate`, as a case split. -/
theorem calculate_default_rate_cases (ds : DataSource) :
    calculate_default_rate ds = (0, 0) ∨
    ∃ a b : ℚ, calculate_default_rate ds = (round2 a, round2 b) := by
  simp only [calculate_default_rate]
  split
  · exact Or.inl rfl
  · exact Or.inr ⟨_, _, rfl⟩

/-! ## Facts about the liquidity contribution -/

theorem ldrScoreOf_nonneg (q : ℚ) : 0 ≤ ldrScoreOf q := by
  unfold ldrScoreOf
  refine le_min ?_ (by norm_num)
  split
  · linarith [sub_pos.mpr (show q < 80 by assumption)]
  · split
    · linarith [sub_pos.mpr (show (100 : ℚ) < q by assumption)]
    · exact le_refl 0

theorem ldrScoreOf_le_20 (q : ℚ) : ldrScoreOf q ≤ 20 :=
  min_le_right _ _

theorem ldrScoreOf_eq_zero_iff (q : ℚ) :
    ldrScoreOf q = 0 ↔ 80 ≤ q ∧ q ≤ 100 := by
  unfold ldrScoreOf
  by_cases h1 : q < 80
  · simp only [if_pos h1]
    have hpos : 0 < min ((80 - q) * (1 / 2)) 20 := lt_min (by linarith) (by norm_num)
    constructor
    · intro h
      exact absurd h.symm (ne_of_lt hpos)
    · rintro ⟨h80, -⟩
      exact absurd h1 (not_lt.mpr h80)
  · by_cases h2 : 100 < q
    · simp only [if_neg h1, if_pos h2]
      have hpos : 0 < min ((q - 100) * (1 / 2)) 20 := lt_min (by linarith) (by norm_num)
      constructor
      · intro h
        exact absurd h.symm (ne_of_lt hpos)
      · rintro ⟨-, h100⟩
        exact absurd h2 (not_lt.mpr h100)
    · simp only [if_neg h1, if_neg h2]
      constructor
      · intro _
        exact ⟨not_lt.mp h1, not_lt.mp h2⟩
      · intro _
        norm_num

theorem ldrScoreOf_low {q : ℚ} (h : q < 80) :
    ldrScoreOf q = min ((80 - q) * (1 / 2)) 20 := by
  unfold ldrScoreOf
  rw [if_pos h]

theorem ldrScoreOf_high {q : ℚ} (h : 100 < q) :
    ldrScoreOf q = min ((q - 100) * (1 / 2)) 20 := by
  unfold ldrScoreOf
  rw [if_neg (by linarith : ¬ q < 80), if_pos h]

/-! ## Claim theorems -/

/-- **C3**: whenever a metric's denominator is zero (total assets for NIM and
ROA, equity for ROE, total income for CIR, total deposits for LDR, and an
empty loans table for the default rate and the NPL ratio), the calculator
returns `0.0` (the pair `(0.0, 0.0)` for the default rate), and every metric
value returned carries at most two decimal places. -/
theorem C3_zero_denominator_fallbacks (ds : DataSource) :
    (totalDeposits ds + totalLoanAmount ds = 0 →
      calculate_net_interest_margin ds = 0 ∧ calculate_roa ds = 0) ∧
    ((totalDeposits ds + totalLoanAmount ds) * EQUITY_PERCENTAGE = 0 →
      calculate_roe ds = 0) ∧
    (sumBy (windowFS ds.financial_statements) (·.interest_income) +
        sumBy (windowFS ds.financial_statements) (·.fee_income) = 0 →
      calculate_cost_to_income_ratio ds = 0) ∧
    (totalDeposits ds = 0 → calculate_loan_to_deposit_ratio ds = 0) ∧
    (ds.loans = [] → calculate_default_rate ds = (0, 0)) ∧
    (totalLoanAmount ds = 0 → calculate_npl_ratio ds = 0) ∧
    isRound2 (calculate_net_interest_margin ds) ∧ isRound2 (calculate_roa ds) ∧
    isRound2 (calculate_roe ds) ∧ isRound2 (calculate_cost_to_income_ratio ds) ∧
    isRound2 (calculate_loan_to_deposit_ratio ds) ∧
    isRound2 (calculate_default_rate ds).1 ∧ isRound2 (calculate_default_rate ds).2 ∧
    isRound2 (calculate_npl_ratio ds) := by
  refine ⟨?_, ?_, ?_, ?_, ?_, ?_, ?_, ?_, ?_, ?_, ?_, ?_, ?_, ?_⟩
  · intro h
    constructor
    · simp [calculate_net_interest_margin, h]
    · simp [calculate_roa, h]
  · intro h
    simp [calculate_roe, h]
  · intro h
    simp [calculate_cost_to_income_ratio, h]
  · intro h
    simp [calculate_loan_to_deposit_ratio, h]
  · intro h
    simp [calculate_default_rate, h]
  · intro h
    simp [calculate_npl_ratio, h]
  · exact isRound2_ite _ _
  · exact isRound2_ite _ _
  · exact isRound2_ite _ _
  · exact isRound2_ite _ _
  · exact isRound2_ite _ _
  · rcases calculate_default_rate_cases ds with h | ⟨a, b, h⟩ <;> rw [h]
    · exact isRound2_zero
    · exact isRound2_round2 a
  · rcases calculate_default_rate_cases ds with h | ⟨a, b, h⟩ <;> rw [h]
    · exact isRound2_zero
    · exact isRound2_round2 b
  · exact isRound2_ite _ _

/-- Witness for C3 at the empty data source: every denominator is zero there,
and every calculator indeed returns its zero value. -/
theorem C3_witness :
    calculate_net_interest_margin emptyDS = 0 ∧ calculate_roa emptyDS = 0 ∧
    calculate_roe emptyDS = 0 ∧ calculate_cost_to_income_ratio emptyDS = 0 ∧
    calculate_loan_to_deposit_ratio emptyDS = 0 ∧
    calculate_default_rate emptyDS = (0, 0) ∧ calculate_npl_ratio emptyDS = 0 := by
  have h := C3_zero_denominator_fallbacks emptyDS
  have h0 : totalDeposits emptyDS + totalLoanAmount emptyDS = 0 := by
    simp [totalDeposits, totalLoanAmount, emptyDS]
  refine ⟨(h.1 h0).1, (h.1 h0).2, h.2.1 (by rw [h0]; ring), h.2.2.1 ?_,
    h.2.2.2.1 ?_, h.2.2.2.2.1 rfl, h.2.2.2.2.2.1 ?_⟩
  · simp [windowFS, emptyDS, List.insertionSort]
  · simp [totalDeposits, emptyDS]
  · simp [totalLoanAmount, emptyDS]

/-- **C6**: inside the risk index, the liquidity contribution is `0` exactly
when `80 ≤ LDR ≤ 100`; below `80` it is `(80 − LDR) × 0.5` capped at `20`, and
above `100` it is `(LDR − 100) × 0.5` capped at `20`. -/
theorem C6_liquidity_contribution (ds : DataSource) :
    (ldrScore ds = 0 ↔
      80 ≤ calculate_loan_to_deposit_ratio ds ∧
        calculate_loan_to_deposit_ratio ds ≤ 100) ∧
    (calculate_loan_to_deposit_ratio ds < 80 →
      ldrScore ds = min ((80 - calculate_loan_to_deposit_ratio ds) * (1 / 2)) 20) ∧
    (100 < calculate_loan_to_deposit_ratio ds →
      ldrScore ds = min ((calculate_loan_to_deposit_ratio ds - 100) * (1 / 2)) 20) :=
  ⟨ldrScoreOf_eq_zero_iff _, fun h => ldrScoreOf_low h, fun h => ldrScoreOf_high h⟩

/-- Witness for C6: at the empty data source the LDR is `0 < 80`, so the
low-LDR branch applies (and the contribution is nonzero); at `highDS` the LDR
is `300 > 100`, so the high-LDR branch applies. -/
def highDS : DataSource :=
  ⟨[], [⟨"A1", "C1", "checking", 100, 0⟩], [⟨"L1", "C1", "Technology", 300, 0, false⟩]⟩

theorem ldr_emptyDS : calculate_loan_to_deposit_ratio emptyDS = 0 := by
  simp [calculate_loan_to_deposit_ratio, totalDeposits, emptyDS]

theorem ldr_highDS : calculate_loan_to_deposit_ratio highDS = 300 := by
  have h300 : round2 300 = 300 := by
    rw [show (300 : ℚ) = ((300 : ℤ) : ℚ) by norm_num, round2_intCast]
  simp only [calculate_loan_to_deposit_ratio, totalDeposits, totalLoanAmount, highDS,
    isDepositType, List.filter, sumBy, List.map, List.sum_cons, List.sum_nil]
  norm_num [h300]

theorem C6_witness :
    ldrScore emptyDS = min ((80 - calculate_loan_to_deposit_ratio emptyDS) * (1 / 2)) 20 ∧
    ldrScore highDS = min ((calculate_loan_to_deposit_ratio highDS - 100) * (1 / 2)) 20 :=
  ⟨(C6_liquidity_contribution emptyDS).2.1 (by rw [ldr_emptyDS]; norm_num),
   (C6_liquidity_contribution highDS).2.2 (by rw [ldr_highDS]; norm_num)⟩

/-- **C4**: the NPL ratio coincides with the second component (rate by value)
of the default rate on every data source satisfying the data-model invariant
`loan_amount > 0`; on a non-empty loans table both equal
`round2(Σ defaulted loan_amount / Σ loan_amount × 100)`. -/
theorem C4_npl_equals_default_rate_by_value (ds : DataSource)
    (hpos : ∀ l ∈ ds.loans, 0 < l.loan_amount) :
    calculate_npl_ratio ds = (calculate_default_rate ds).2 ∧
    (ds.loans ≠ [] →
      calculate_npl_ratio ds = round2 (defaultedAmount ds / totalLoanAmount ds * 100)) := by
  cases hl : ds.loans with
  | nil =>
    have htot : totalLoanAmount ds = 0 := by simp [totalLoanAmount, hl]
    constructor
    · simp [calculate_npl_ratio, calculate_default_rate, htot, hl]
    · intro h
      exact absurd rfl h
  | cons x t =>
    have hne : ds.loans ≠ [] := by rw [hl]; exact List.cons_ne_nil x t
    have htot : 0 < totalLoanAmount ds := sumBy_pos hne hpos
    have hcount : ((ds.loans.length : ℚ)) ≠ 0 := by
      rw [hl]
      exact_mod_cast Nat.cast_ne_zero.mpr (Nat.succ_ne_zero t.length)
    constructor
    · simp only [calculate_npl_ratio, calculate_default_rate,
        if_neg (ne_of_gt htot), if_neg hcount, if_pos htot]
    · intro _
      simp only [calculate_npl_ratio, if_neg (ne_of_gt htot)]

/-- The two-loan scenario of the spec: Technology 500000 (performing) and
Retail 300000 (defaulted), with 300000 of deposits. -/
def specDS : DataSource :=
  ⟨[],
   [⟨"ACC001", "CUST001", "checking", 100000, 2 / 100⟩,
    ⟨"ACC002", "CUST001", "savings", 200000, 5 / 100⟩],
   [⟨"LOAN001", "CUST001", "Technology", 500000, 10 / 100, false⟩,
    ⟨"LOAN002", "CUST002", "Retail", 300000, 12 / 100, true⟩]⟩

theorem C4_witness :
    calculate_npl_ratio specDS = (calculate_default_rate specDS).2 ∧
    calculate_npl_ratio specDS =
      round2 (defaultedAmount specDS / totalLoanAmount specDS * 100) := by
  have h := C4_npl_equals_default_rate_by_value specDS (by decide)
  exact ⟨h.1, h.2 (by decide)⟩

/-! ## Facts about the sector aggregation -/

@[simp]
theorem fillColumns_total_exposure (T : ℚ) (r : SectorExposure) :
    (fillColumns T r).total_exposure = r.total_exposure := rfl

@[simp]
theorem fillColumns_exposure_pct (T : ℚ) (r : SectorExposure) :
    (fillColumns T r).exposure_pct = r.total_exposure / T * 100 := rfl

theorem sectorQuery_perm (loans : List Loan) :
    (sectorQuery loans).Perm ((sectorList loans).map (baseSectorRow loans)) :=
  List.perm_insertionSort _ _

theorem sectorQuery_eq_nil_iff (loans : List Loan) :
    sectorQuery loans = [] ↔ loans = [] := by
  constructor
  · intro h
    have hlen := (sectorQuery_perm loans).length_eq
    rw [h] at hlen
    simp only [List.length_nil, List.length_map] at hlen
    have hsec : sectorList loans = [] := List.length_eq_zero.mp hlen.symm
    unfold sectorList at hsec
    rw [List.dedup_eq_nil] at hsec
    exact List.map_eq_nil_iff.mp hsec
  · intro h
    subst h
    rfl

theorem mem_sectorList {loans : List Loan} {s : String} :
    s ∈ sectorList loans ↔ ∃ l ∈ loans, l.sector = s := by
  simp [sectorList, List.mem_dedup]

theorem loansInSector_ne_nil {loans : List Loan} {s : String}
    (h : s ∈ sectorList loans) : loansInSector loans s ≠ [] := by
  obtain ⟨l, hl, hsec⟩ := mem_sectorList.mp h
  intro hnil
  have hmem : l ∈ loansInSector loans s := by
    unfold loansInSector
    rw [List.mem_filter]
    exact ⟨hl, by simp [hsec]⟩
  rw [hnil] at hmem
  exact List.not_mem_nil l hmem

theorem baseSectorRow_exposure_pos {loans : List Loan}
    (hpos : ∀ l ∈ loans, 0 < l.loan_amount) {s : String} (hs : s ∈ sectorList loans) :
    0 < (baseSectorRow loans s).total_exposure := by
  unfold baseSectorRow
  refine sumBy_pos (loansInSector_ne_nil hs) ?_
  intro l hl
  unfold loansInSector at hl
  exact hpos l (List.mem_filter.mp hl).1

theorem sectorQuery_exposure_pos {loans : List Loan}
    (hpos : ∀ l ∈ loans, 0 < l.loan_amount) :
    ∀ r ∈ sectorQuery loans, 0 < r.total_exposure := by
  intro r hr
  rw [(sectorQuery_perm loans).mem_iff] at hr
  obtain ⟨s, hs, rfl⟩ := List.mem_map.mp hr
  exact baseSectorRow_exposure_pos hpos hs

theorem grandTotal_pos {loans : List Loan} (hne : loans ≠ [])
    (hpos : ∀ l ∈ loans, 0 < l.loan_amount) :
    0 < sumBy (sectorQuery loans) (·.total_exposure) := by
  refine sumBy_pos ?_ (sectorQuery_exposure_pos hpos)
  intro h
  exact hne ((sectorQuery_eq_nil_iff loans).mp h)

theorem credit_exposure_nil (ds : DataSource) (h : ds.loans = []) :
    calculate_credit_exposure_by_sector ds = [] := by
  have hq : sectorQuery ds.loans = [] := by rw [h]; rfl
  simp [calculate_credit_exposure_by_sector, hq]

theorem credit_exposure_eq (ds : DataSource) (hne : ds.loans ≠ []) :
    calculate_credit_exposure_by_sector ds =
      (sectorQuery ds.loans).map
        (fillColumns (sumBy (sectorQuery ds.loans) (·.total_exposure))) := by
  have hq : sectorQuery ds.loans ≠ [] := fun h => hne ((sectorQuery_eq_nil_iff _).mp h)
  have hlen : (sectorQuery ds.loans).length ≠ 0 := fun h => hq (List.length_eq_zero.mp h)
  simp only [calculate_credit_exposure_by_sector, if_neg hlen]

theorem sum_exposure_pct (ds : DataSource) (hne : ds.loans ≠ [])
    (hpos : ∀ l ∈ ds.loans, 0 < l.loan_amount) :
    sumBy (calculate_credit_exposure_by_sector ds) (·.exposure_pct) = 100 := by
  have hT := grandTotal_pos hne hpos
  rw [credit_exposure_eq ds hne, sumBy_map]
  simp only [fillColumns_exposure_pct]
  rw [sumBy_div_mul, div_self (ne_of_gt hT), one_mul]

theorem credit_exposure_sorted (ds : DataSource) :
    List.Sorted exposureDesc (calculate_credit_exposure_by_sector ds) := by
  rcases eq_or_ne ds.loans [] with h | h
  · rw [credit_exposure_nil ds h]
    exact List.sorted_nil
  · rw [credit_exposure_eq ds h]
    refine List.Pairwise.map _ ?_ (List.sorted_insertionSort exposureDesc _)
    intro a b hab
    exact hab

/-! ## Sums of squares versus squared sums -/

theorem sq_sumBy_le {α : Type} (l : List α) (f : α → ℚ)
    (h : ∀ x ∈ l, 0 ≤ f x) :
    sumBy l (fun x => f x ^ 2) ≤ (sumBy l f) ^ 2 := by
  induction l with
  | nil => simp
  | cons x t ih =>
    have hx := h x (by simp)
    have ht : ∀ y ∈ t, 0 ≤ f y := fun y hy => h y (by simp [hy])
    have hs := sumBy_nonneg ht
    have hle := ih ht
    simp only [sumBy_cons]
    nlinarith

theorem sq_sumBy_lt {α : Type} (x y : α) (t : List α) (f : α → ℚ)
    (h : ∀ z ∈ x :: y :: t, 0 < f z) :
    sumBy (x :: y :: t) (fun z => f z ^ 2) < (sumBy (x :: y :: t) f) ^ 2 := by
  have hx := h x (by simp)
  have hyt : ∀ z ∈ y :: t, 0 < f z := fun z hz => h z (by simp [hz])
  have hs : 0 < sumBy (y :: t) f := sumBy_pos (List.cons_ne_nil y t) hyt
  have hle : sumBy (y :: t) (fun z => f z ^ 2) ≤ (sumBy (y :: t) f) ^ 2 :=
    sq_sumBy_le _ _ fun z hz => le_of_lt (hyt z hz)
  simp only [sumBy_cons] at *
  nlinarith

theorem sq_sumBy_eq_iff {α : Type} (l : List α) (f : α → ℚ) (hne : l ≠ [])
    (h : ∀ x ∈ l, 0 < f x) :
    sumBy l (fun x => f x ^ 2) = (sumBy l f) ^ 2 ↔ l.length = 1 := by
  cases l with
  | nil => exact absurd rfl hne
  | cons x t =>
    cases t with
    | nil => simp [sumBy]
    | cons y t2 =>
      constructor
      · intro heq
        exact absurd heq (ne_of_lt (sq_sumBy_lt x y t2 f h))
      · intro hlen
        simp at hlen

/-! ## The concentration contribution -/

theorem concentrationScore_nil (ds : DataSource) (h : ds.loans = []) :
    concentrationScore ds = 10 := by
  have hc := credit_exposure_nil ds h
  simp [concentrationScore, hc]

theorem concentrationScore_eq (ds : DataSource) (hne : ds.loans ≠ []) :
    concentrationScore ds =
      sumBy (sectorQuery ds.loans)
          (fun r =>
            (r.total_exposure / sumBy (sectorQuery ds.loans) (·.total_exposure) * 100) ^ 2)
        / 10000 * 10 := by
  have hc := credit_exposure_eq ds hne
  have hq : sectorQuery ds.loans ≠ [] := fun h => hne ((sectorQuery_eq_nil_iff _).mp h)
  have hlen : ((sectorQuery ds.loans).map
      (fillColumns (sumBy (sectorQuery ds.loans) (·.total_exposure)))).length ≠ 0 := by
    rw [List.length_map]
    exact fun h => hq (List.length_eq_zero.mp h)
  simp only [concentrationScore, hc, if_neg hlen, sumBy_map, fillColumns_total_exposure]

theorem concentrationScore_nonneg (ds : DataSource) : 0 ≤ concentrationScore ds := by
  simp only [concentrationScore]
  split
  · norm_num
  · have hh : 0 ≤ sumBy (calculate_credit_exposure_by_sector ds)
        (fun r => (r.total_exposure /
          sumBy (calculate_credit_exposure_by_sector ds) (·.total_exposure) * 100) ^ 2) :=
      sumBy_nonneg fun r _ => sq_nonneg _
    positivity

theorem concentrationScore_le_10 (ds : DataSource)
    (hpos : ∀ l ∈ ds.loans, 0 < l.loan_amount) : concentrationScore ds ≤ 10 := by
  rcases eq_or_ne ds.loans [] with h | h
  · rw [concentrationScore_nil ds h]
  · rw [concentrationScore_eq ds h]
    have hT := grandTotal_pos h hpos
    have hsum : sumBy (sectorQuery ds.loans)
        (fun r => r.total_exposure / sumBy (sectorQuery ds.loans) (·.total_exposure) * 100) =
        100 := by
      rw [sumBy_div_mul, div_self (ne_of_gt hT), one_mul]
    have hH := sq_sumBy_le (sectorQuery ds.loans)
      (fun r => r.total_exposure / sumBy (sectorQuery ds.loans) (·.total_exposure) * 100)
      (fun r hr => by
        have h1 := sectorQuery_exposure_pos hpos r hr
        positivity)
    rw [hsum] at hH
    norm_num at hH
    linarith

/-- A non-empty loans table covers exactly one distinct sector iff every loan
carries the same sector label. -/
theorem sectorList_length_one_iff (loans : List Loan) (hne : loans ≠ []) :
    (sectorList loans).length = 1 ↔ ∃ s, ∀ l ∈ loans, l.sector = s := by
  constructor
  · intro h
    obtain ⟨s, hs⟩ := List.length_eq_one.mp h
    refine ⟨s, fun l hl => ?_⟩
    have hmem : l.sector ∈ sectorList loans := by
      unfold sectorList
      rw [List.mem_dedup]
      exact List.mem_map_of_mem _ hl
    rw [hs] at hmem
    simpa using hmem
  · rintro ⟨s, hs⟩
    have hmem : s ∈ sectorList loans := by
      cases loans with
      | nil => exact absurd rfl hne
      | cons x t =>
        unfold sectorList
        rw [List.mem_dedup, List.mem_map]
        exact ⟨x, by simp, hs x (by simp)⟩
    have hall : ∀ u ∈ sectorList loans, u = s := by
      intro u hu
      unfold sectorList at hu
      rw [List.mem_dedup, List.mem_map] at hu
      obtain ⟨l, hl, rfl⟩ := hu
      exact hs l hl
    have hnodup : (sectorList loans).Nodup := List.nodup_dedup _
    cases hq : sectorList loans with
    | nil =>
      rw [hq] at hmem
      exact absurd hmem (List.not_mem_nil s)
    | cons u t =>
      rw [hq] at hall hnodup
      have hunotv : u ∉ t := (List.nodup_cons.mp hnodup).1
      cases ht : t with
      | nil => rfl
      | cons v t2 =>
        exfalso
        have hv : v = s := hall v (by simp [ht])
        have hu2 : u = s := hall u (by simp)
        have huv : u = v := by rw [hu2, hv]
        exact hunotv (by rw [ht, huv]; exact List.mem_cons_self v t2)

/-- **C7**: the concentration contribution of the risk index equals its cap 10
exactly when all loan exposure sits in a single sector; with no loan data it
defaults to 10. -/
theorem C7_concentration_extremes (ds : DataSource)
    (hpos : ∀ l ∈ ds.loans, 0 < l.loan_amount) :
    (ds.loans = [] → concentrationScore ds = 10) ∧
    (ds.loans ≠ [] →
      (concentrationScore ds = 10 ↔ ∃ s, ∀ l ∈ ds.loans, l.sector = s)) := by
  refine ⟨concentrationScore_nil ds, fun hne => ?_⟩
  rw [concentrationScore_eq ds hne]
  have hT := grandTotal_pos hne hpos
  have hqne : sectorQuery ds.loans ≠ [] :=
    fun h => hne ((sectorQuery_eq_nil_iff _).mp h)
  have hfpos : ∀ r ∈ sectorQuery ds.loans,
      0 < r.total_exposure / sumBy (sectorQuery ds.loans) (·.total_exposure) * 100 := by
    intro r hr
    have h1 := sectorQuery_exposure_pos hpos r hr
    positivity
  have hsum : sumBy (sectorQuery ds.loans)
      (fun r => r.total_exposure / sumBy (sectorQuery ds.loans) (·.total_exposure) * 100) =
      100 := by
    rw [sumBy_div_mul, div_self (ne_of_gt hT), one_mul]
  have hiff2 := sq_sumBy_eq_iff (sectorQuery ds.loans)
    (fun r => r.total_exposure / sumBy (sectorQuery ds.loans) (·.total_exposure) * 100)
    hqne hfpos
  rw [hsum] at hiff2
  norm_num at hiff2
  have hlen : (sectorQuery ds.loans).length = (sectorList ds.loans).length := by
    rw [(sectorQuery_perm ds.loans).length_eq, List.length_map]
  constructor
  · intro h
    have hH : sumBy (sectorQuery ds.loans)
        (fun r =>
          (r.total_exposure / sumBy (sectorQuery ds.loans) (·.total_exposure) * 100) ^ 2) =
        10000 := by
      have hr : sumBy (sectorQuery ds.loans)
          (fun r =>
            (r.total_exposure / sumBy (sectorQuery ds.loans) (·.total_exposure) * 100) ^ 2)
            / 10000 * 10 =
          sumBy (sectorQuery ds.loans)
          (fun r =>
            (r.total_exposure / sumBy (sectorQuery ds.loans) (·.total_exposure) * 100) ^ 2)
            * (1 / 1000) := by
        ring
      rw [hr] at h
      linarith
    have h1 := hiff2.mp hH
    rw [hlen] at h1
    exact (sectorList_length_one_iff ds.loans hne).mp h1
  · intro h
    have h1 := (sectorList_length_one_iff ds.loans hne).mpr h
    rw [← hlen] at h1
    rw [hiff2.mpr h1]
    norm_num

theorem C7_witness : concentrationScore highDS = 10 :=
  ((C7_concentration_extremes highDS (by decide)).2 (by decide)).mpr
    ⟨"Technology", by decide⟩

/-- **C8**: with at least one loan the sector exposure result is non-empty,
its `exposure_pct` column sums to exactly 100 (hence within the 1e-6
tolerance), and it is ordered descending by `total_exposure`; with no loans it
is empty rather than an error. -/
theorem C8_sector_exposure_invariants (ds : DataSource)
    (hpos : ∀ l ∈ ds.loans, 0 < l.loan_amount) :
    (ds.loans = [] → calculate_credit_exposure_by_sector ds = []) ∧
    (ds.loans ≠ [] →
      calculate_credit_exposure_by_sector ds ≠ [] ∧
      sumBy (calculate_credit_exposure_by_sector ds) (·.exposure_pct) = 100 ∧
      List.Sorted exposureDesc (calculate_credit_exposure_by_sector ds)) := by
  refine ⟨credit_exposure_nil ds, fun hne =>
    ⟨?_, sum_exposure_pct ds hne hpos, credit_exposure_sorted ds⟩⟩
  rw [credit_exposure_eq ds hne]
  have hq : sectorQuery ds.loans ≠ [] := fun h => hne ((sectorQuery_eq_nil_iff _).mp h)
  simpa using hq

theorem C8_witness :
    calculate_credit_exposure_by_sector specDS ≠ [] ∧
    sumBy (calculate_credit_exposure_by_sector specDS) (·.exposure_pct) = 100 ∧
    List.Sorted exposureDesc (calculate_credit_exposure_by_sector specDS) :=
  (C8_sector_exposure_invariants specDS (by decide)).2 (by decide)

/-! ## Non-negativity of the credit-quality metrics -/

theorem totalLoanAmount_nonneg (ds : DataSource)
    (hpos : ∀ l ∈ ds.loans, 0 < l.loan_amount) : 0 ≤ totalLoanAmount ds :=
  sumBy_nonneg fun l hl => le_of_lt (hpos l hl)

theorem defaultedAmount_nonneg (ds : DataSource)
    (hpos : ∀ l ∈ ds.loans, 0 < l.loan_amount) : 0 ≤ defaultedAmount ds :=
  sumBy_nonneg fun l hl => le_of_lt (hpos l (List.mem_filter.mp hl).1)

theorem npl_ratio_nonneg (ds : DataSource)
    (hpos : ∀ l ∈ ds.loans, 0 < l.loan_amount) : 0 ≤ calculate_npl_ratio ds := by
  simp only [calculate_npl_ratio]
  split
  · exact le_refl 0
  · refine round2_nonneg (mul_nonneg (div_nonneg ?_ ?_) (by norm_num))
    · exact defaultedAmount_nonneg ds hpos
    · exact totalLoanAmount_nonneg ds hpos

theorem default_rate_value_nonneg (ds : DataSource)
    (hpos : ∀ l ∈ ds.loans, 0 < l.loan_amount) : 0 ≤ (calculate_default_rate ds).2 := by
  simp only [calculate_default_rate]
  split
  · exact le_refl 0
  · refine round2_nonneg ?_
    split
    · refine mul_nonneg (div_nonneg (defaultedAmount_nonneg ds hpos) ?_) (by norm_num)
      exact totalLoanAmount_nonneg ds hpos
    · exact le_refl 0

/-- **C5**: each of the four contributions of the risk index respects its cap
before summation — NPL at most 40, liquidity at most 20, default at most 30,
concentration at most 10 — and the index is the clamp to 100 of their sum. -/
theorem C5_contribution_caps (ds : DataSource)
    (hpos : ∀ l ∈ ds.loans, 0 < l.loan_amount) :
    nplScore ds ≤ 40 ∧ ldrScore ds ≤ 20 ∧ defaultScore ds ≤ 30 ∧
    concentrationScore ds ≤ 10 ∧
    calculate_bank_risk_index ds =
      round2 (min (nplScore ds + ldrScore ds + defaultScore ds + concentrationScore ds)
        100) :=
  ⟨min_le_right _ _, ldrScoreOf_le_20 _, min_le_right _ _,
   concentrationScore_le_10 ds hpos, rfl⟩

theorem C5_witness :
    nplScore specDS ≤ 40 ∧ ldrScore specDS ≤ 20 ∧ defaultScore specDS ≤ 30 ∧
    concentrationScore specDS ≤ 10 :=
  let h := C5_contribution_caps specDS (by decide)
  ⟨h.1, h.2.1, h.2.2.1, h.2.2.2.1⟩

/-- **C1**: the composite risk index lies in the closed interval `[0, 100]`
for every data source (including empty tables). -/
theorem C1_risk_index_in_range (ds : DataSource)
    (hpos : ∀ l ∈ ds.loans, 0 < l.loan_amount) :
    0 ≤ calculate_bank_risk_index ds ∧ calculate_bank_risk_index ds ≤ 100 := by
  have h1 : 0 ≤ nplScore ds :=
    le_min (mul_nonneg (npl_ratio_nonneg ds hpos) (by norm_num)) (by norm_num)
  have h2 : 0 ≤ ldrScore ds := ldrScoreOf_nonneg _
  have h3 : 0 ≤ defaultScore ds :=
    le_min (mul_nonneg (default_rate_value_nonneg ds hpos) (by norm_num)) (by norm_num)
  have h4 : 0 ≤ concentrationScore ds := concentrationScore_nonneg ds
  constructor
  · refine round2_nonneg (le_min (by linarith) (by norm_num))
  · exact round2_le_100 (min_le_right _ _)

theorem C1_witness :
    0 ≤ calculate_bank_risk_index emptyDS ∧ calculate_bank_risk_index emptyDS ≤ 100 :=
  C1_risk_index_in_range emptyDS (by decide)

/-- **C10**: on a data source whose three tables are all empty, the risk index
is exactly 30: NPL and default contributions are 0, the LDR fallback 0 drives
the liquidity contribution to its cap 20, and the concentration contribution
defaults to 10. -/
theorem C10_empty_risk_index (ds : DataSource)
    (_h1 : ds.financial_statements = []) (h2 : ds.accounts = []) (h3 : ds.loans = []) :
    calculate_bank_risk_index ds = 30 := by
  have hnpl : calculate_npl_ratio ds = 0 := by
    simp [calculate_npl_ratio, totalLoanAmount, h3]
  have hldr : calculate_loan_to_deposit_ratio ds = 0 := by
    simp [calculate_loan_to_deposit_ratio, totalDeposits, h2]
  have hdr : calculate_default_rate ds = (0, 0) := by
    simp [calculate_default_rate, h3]
  have hconc : concentrationScore ds = 10 := concentrationScore_nil ds h3
  have h30 : round2 30 = 30 := by
    rw [show (30 : ℚ) = ((30 : ℤ) : ℚ) by norm_num, round2_intCast]
  unfold calculate_bank_risk_index nplScore ldrScore defaultScore
  rw [hnpl, hldr, hdr, hconc]
  norm_num [ldrScoreOf]
  exact h30

theorem C10_witness : calculate_bank_risk_index emptyDS = 30 :=
  C10_empty_risk_index emptyDS rfl rfl rfl

/-! ## The analysis window -/

theorem windowFS_sorted (fs : List FinancialPeriod) :
    List.Sorted monthDesc (windowFS fs) :=
  List.Pairwise.sublist (List.take_sublist _ _) (List.sorted_insertionSort monthDesc fs)

theorem windowFS_idem (fs : List FinancialPeriod) :
    windowFS (windowFS fs) = windowFS fs := by
  conv_lhs =>
    rw [show windowFS (windowFS fs) =
      (List.insertionSort monthDesc (windowFS fs)).take MONTHS_FOR_ANALYSIS from rfl]
  rw [List.Sorted.insertionSort_eq (windowFS_sorted fs)]
  simp only [windowFS]
  rw [List.take_take, min_self]

theorem windowFS_perm_of_le (fs : List FinancialPeriod)
    (h : fs.length ≤ MONTHS_FOR_ANALYSIS) : (windowFS fs).Perm fs := by
  unfold windowFS
  have hlen : (List.insertionSort monthDesc fs).length = fs.length :=
    (List.perm_insertionSort monthDesc fs).length_eq
  rw [List.take_of_length_le (by rw [hlen]; exact h)]
  exact List.perm_insertionSort monthDesc fs

/-- **C9**: every windowed calculator reads only the most recent
`MONTHS_FOR_ANALYSIS = 12` periods (ordered by month, descending); if fewer
periods exist, the window is all of them. -/
theorem C9_analysis_window :
    MONTHS_FOR_ANALYSIS = 12 ∧
    (∀ fs : List FinancialPeriod,
      fs.length ≤ MONTHS_FOR_ANALYSIS → (windowFS fs).Perm fs) ∧
    (∀ ds : DataSource,
      calculate_net_interest_margin
          { ds with financial_statements := windowFS ds.financial_statements } =
        calculate_net_interest_margin ds ∧
      calculate_roa { ds with financial_statements := windowFS ds.financial_statements } =
        calculate_roa ds ∧
      calculate_roe { ds with financial_statements := windowFS ds.financial_statements } =
        calculate_roe ds ∧
      calculate_cost_to_income_ratio
          { ds with financial_statements := windowFS ds.financial_statements } =
        calculate_cost_to_income_ratio ds ∧
      get_financial_summary
          { ds with financial_statements := windowFS ds.financial_statements } =
        get_financial_summary ds) := by
  refine ⟨rfl, fun fs h => windowFS_perm_of_le fs h, fun ds => ?_⟩
  have hw := windowFS_idem ds.financial_statements
  refine ⟨?_, ?_, ?_, ?_, ?_⟩ <;>
    simp [calculate_net_interest_margin, calculate_roa, calculate_roe,
      calculate_cost_to_income_ratio, get_financial_summary,
      totalDeposits, totalLoanAmount, hw]

theorem C9_witness : (windowFS []).Perm [] ∧ MONTHS_FOR_ANALYSIS = 12 :=
  ⟨C9_analysis_window.2.1 [] (by decide), C9_analysis_window.1⟩

/-! ## Error flow (C2) -/

/-- Counterexample to the claim that calculators re-raise infrastructure
errors: when the first query raises `sqlite3.Error`, the NIM calculator
returns `0.0` instead of propagating the error. -/
theorem C2_counterexample :
    safeQueryExecution
        (Except.error PyExc.sqliteError : Except PyExc (List FinancialPeriod)) =
      Except.error PyExc.sqliteError ∧
    calculate_net_interest_margin_exc (Except.error PyExc.sqliteError)
        (Except.ok 0) (Except.ok 0) = Except.ok 0 ∧
    (Except.ok (0 : ℚ) : Except PyExc ℚ) ≠ Except.error PyExc.sqliteError := by
  refine ⟨rfl, rfl, ?_⟩
  intro h
  exact Except.noConfusion h

/-- **C2 (amended)**: `_safe_query_execution` re-raises every error — both
infrastructure errors and unexpected ones — to the calculator, but the
calculator's own blanket handler converts any escaping exception to its zero
default, so no error reaches the calculator's caller. -/
theorem C2_calculator_swallows_errors (e : PyExc) (depq loq : Except PyExc ℚ) :
    safeQueryExecution (Except.error e : Except PyExc (List FinancialPeriod)) =
      Except.error e ∧
    calculate_net_interest_margin_exc (Except.error e) depq loq = Except.ok 0 ∧
    ∀ fsq : Except PyExc (List FinancialPeriod),
      ∃ v : ℚ, calculate_net_interest_margin_exc fsq depq loq = Except.ok v := by
  refine ⟨rfl, ?_, fun fsq => ?_⟩
  · cases depq <;> cases loq <;> rfl
  · unfold calculate_net_interest_margin_exc
    cases h : nimBody fsq depq loq with
    | ok v => exact ⟨v, rfl⟩
    | error e2 => exact ⟨0, rfl⟩
